import Mathlib

/-!
Shallow embedding of the personal-blog web application
(`src/api/index.py` and `src/api/forms.py`).

The application state seen by a request handler is modelled by `Ctx`:
the relational store (`DB`, holding the `users` and `blog_posts` tables
with their auto-increment counters), the login session
(`Option Nat`, the id of the logged-in user, `none` when anonymous, as managed
by `login_user` / `logout_user` / the session cookie), and the list of
pending flash messages.

External library primitives are modelled as follows:

* the werkzeug call `generate_password_hash` (with method
  `pbkdf2:sha256` and `salt_length=8`) produces a stored credential embedding the method tag,
  the random salt and the PBKDF2-HMAC-SHA256 digest of (salt, password);
  the digest function itself is an external primitive, so it is passed in
  as an explicit argument `hashFn : String → String → String`
  (salt, password ↦ digest).  `check_password_hash` recomputes the digest
  from the embedded salt and compares.  The random salt drawn on each
  call is likewise passed in as an argument.
* the `wtforms.validators.URL()` regular-expression check is an external
  primitive, passed in as `urlOk : String → Bool`.
* `datetime.today().strftime(s)` is passed in as the string `today`.
* Python exceptions that escape a handler are modelled by the
  `Except PyError Response` component of a result, paired with
  the store state left behind (an uncommitted SQLAlchemy session is
  rolled back, so the persistent store is unchanged when a raise happens
  before a successful `commit`).
-/

namespace Blog

/-- A stored password credential: the parsed form of the
`method$salt$digest` string produced by werkzeug `generate_password_hash`. -/
structure StoredCred where
  method : String
  salt : String
  digest : String
deriving DecidableEq, Repr

/-- The werkzeug call `generate_password_hash(password)` with method
`pbkdf2:sha256` and `salt_length=8`: embeds the salt next to the digest
`hashFn salt password`. -/
def generate_password_hash (hashFn : String → String → String)
    (salt password : String) : StoredCred :=
  { method := "pbkdf2:sha256", salt := salt, digest := hashFn salt password }

/-- The werkzeug call `check_password_hash(pwhash, password)`: recomputes the
digest from the embedded salt and compares it with the stored digest. -/
def check_password_hash (hashFn : String → String → String)
    (pwhash : StoredCred) (password : String) : Bool :=
  hashFn pwhash.salt password == pwhash.digest

/-- Row of the `users` table (class `User` in `src/api/index.py`). -/
structure User where
  id : Nat
  name : String
  email : String
  password : StoredCred
deriving DecidableEq, Repr

/-- Row of the `blog_posts` table (class `BlogPost` in `src/api/index.py`).
`author_id` is nullable and is never set by any handler. -/
structure BlogPost where
  id : Nat
  title : String
  subtitle : String
  date : String
  body : String
  img_url : String
  author_id : Option Nat
  genre : String
deriving DecidableEq, Repr

/-- The relational store: the two tables the handlers touch, with their
auto-increment id counters (every stored row has id below the counter). -/
structure DB where
  users : List User
  posts : List BlogPost
  nextUserId : Nat
  nextPostId : Nat
deriving DecidableEq, Repr

/-- Request-visible application state: store, login session (the id held in
the session cookie, `none` when anonymous) and pending flash messages. -/
structure Ctx where
  db : DB
  session : Option Nat
  flashes : List String
deriving DecidableEq, Repr

/-- The data a handler hands to the presentation layer. -/
inductive Response where
  | render (template : String)
  | renderIndex (posts : List BlogPost)
  | renderPost (post : Option BlogPost)
  | renderCategory (posts : List BlogPost) (categoryName : String)
      (filepath : String)
  | redirect (endpoint : String)
  | forbidden
deriving DecidableEq, Repr

/-- Python exceptions that escape a handler uncaught. -/
inductive PyError where
  | unmappedInstance
  | integrityError
  | keyError (key : String)
deriving DecidableEq, Repr

/-- Outcome of one request: a response, or an uncaught exception, together
with the store/session state left behind. -/
abbrev HandlerResult := Except PyError Response × Ctx

/-- The `@login_manager.user_loader` function: `User.query.get(user_id)`. -/
def load_user (db : DB) (user_id : Nat) : Option User :=
  db.users.find? (fun u => u.id == user_id)

/-- The flask_login `current_user` value, resolved to `some` user or anonymous
(`none`): the session id is looked up through `load_user`; a stale id
degrades to anonymous. -/
def currentUser (ctx : Ctx) : Option User :=
  ctx.session.bind (load_user ctx.db)

/-- The `admin_only` decorator: runs the wrapped handler only when
`current_user.id == 1`; otherwise `abort(403)`.  On an anonymous identity
`current_user.id` raises `AttributeError`, which the decorator catches and
turns into the same `abort(403)`; `abort(403)` itself is modelled as the
fixed `Response.forbidden` value Flask renders for it. -/
def admin_only (function : Ctx → HandlerResult) (ctx : Ctx) : HandlerResult :=
  match currentUser ctx with
  | some u => if u.id = 1 then function ctx else (.ok .forbidden, ctx)
  | none => (.ok .forbidden, ctx)

/-- The wtforms validator `DataRequired`: fails on missing or
whitespace-only string data (the field data with `strip()` applied must be
non-empty, i.e. some character is not whitespace). -/
def dataRequired (s : String) : Bool :=
  s.toList.any (fun c => !c.isWhitespace)

/-- The fields of `RegisterForm` in `src/api/forms.py`. -/
structure RegisterForm where
  name : String
  email : String
  password : String
deriving DecidableEq, Repr

/-- Validation of `RegisterForm`: `DataRequired` on name, email and password,
and `Length(min=7, max=25)` on the password. -/
def validateRegister (f : RegisterForm) : Bool :=
  dataRequired f.name && dataRequired f.email && dataRequired f.password
    && decide (7 ≤ f.password.length) && decide (f.password.length ≤ 25)

/-- The fields of `LoginForm` in `src/api/forms.py`. -/
structure LoginForm where
  email : String
  password : String
deriving DecidableEq, Repr

/-- Validation of `LoginForm`: `DataRequired` on email and password. -/
def validateLogin (f : LoginForm) : Bool :=
  dataRequired f.email && dataRequired f.password

/-- The `choices` list of the `genre` `SelectField` of `CreatePostForm`. -/
def genreChoices : List String :=
  ["Tech", "Education", "Entertainment", "Random Thoughts"]

/-- The fields of `CreatePostForm` in `src/api/forms.py`. -/
structure CreatePostForm where
  title : String
  subtitle : String
  genre : String
  img_url : String
  body : String
deriving DecidableEq, Repr

/-- Validation of `CreatePostForm`: `DataRequired` on every field, the
`SelectField` choice check on `genre`, and the `URL()` regular-expression
check (external primitive `urlOk`) on `img_url`. -/
def validateCreatePost (urlOk : String → Bool) (f : CreatePostForm) : Bool :=
  dataRequired f.title && dataRequired f.subtitle
    && genreChoices.contains f.genre
    && dataRequired f.img_url && urlOk f.img_url
    && dataRequired f.body

/-- The `home` handler (route `/`): lists all posts. -/
def home (ctx : Ctx) : HandlerResult :=
  (.ok (.renderIndex ctx.db.posts), ctx)

/-- The `register` handler (route `/register`).  On a validated submission:
if no stored user already has the submitted email, a new `User` row is
inserted (name, email, and the salted password hash — never the raw
password), committed, logged in via `login_user`, and the request redirects
home; on a duplicate email nothing is inserted, a warning message is
flashed and the request redirects to login.  Otherwise the registration
page is rendered again. -/
def register (hashFn : String → String → String) (salt : String)
    (f : RegisterForm) (ctx : Ctx) : HandlerResult :=
  if validateRegister f then
    if (ctx.db.users.find? (fun u => u.email == f.email)).isNone then
      (.ok (.redirect "home"),
       { ctx with
         db := { ctx.db with
                 users := ctx.db.users ++
                   [{ id := ctx.db.nextUserId, name := f.name, email := f.email,
                      password := generate_password_hash hashFn salt f.password }],
                 nextUserId := ctx.db.nextUserId + 1 },
         session := some ctx.db.nextUserId })
    else
      (.ok (.redirect "login"),
       { ctx with
         flashes := ctx.flashes ++
           ["This email is already registered in our database. Try logging in instead."] })
  else
    (.ok (.render "register.html"), ctx)

/-- The `login` handler (route `/login`).  On a validated submission it
looks up the first user with the submitted email; a session is started
(`login_user`) exactly when the lookup succeeds and `check_password_hash`
accepts, otherwise a flash message is recorded and the login page is
rendered with no session change. -/
def login (hashFn : String → String → String) (f : LoginForm)
    (ctx : Ctx) : HandlerResult :=
  if validateLogin f then
    match ctx.db.users.find? (fun u => u.email == f.email) with
    | some user =>
      if check_password_hash hashFn user.password f.password then
        (.ok (.redirect "home"), { ctx with session := some user.id })
      else
        (.ok (.render "login.html"),
         { ctx with flashes := ctx.flashes ++ ["Incorrect password. Try again"] })
    | none =>
      (.ok (.render "login.html"),
       { ctx with flashes := ctx.flashes ++ ["There is no account for that user"] })
  else
    (.ok (.render "login.html"), ctx)

/-- The `logout` handler (route `/logout`): ends the session. -/
def logout (ctx : Ctx) : HandlerResult :=
  (.ok (.redirect "home"), { ctx with session := none })

/-- The post row built by the `new_post` handler: the form fields, the
creation-day string for `date`, and `author_id` left unset. -/
def mkBlogPost (today : String) (f : CreatePostForm) (pid : Nat) : BlogPost :=
  { id := pid, title := f.title, subtitle := f.subtitle, date := today,
    body := f.body, img_url := f.img_url, author_id := none, genre := f.genre }

/-- Body of the `new_post` handler (route `/new-post`, before the
`admin_only` wrapping).  On a validated submission the post row is built
and committed; the `title` column carries `unique=True`, so the commit
raises `IntegrityError` when a stored post already has that title (there is
no application-level duplicate-title pre-check), leaving the store
unchanged.  Otherwise the new row is appended and the request redirects
home. -/
def new_post_body (urlOk : String → Bool) (today : String)
    (f : CreatePostForm) (ctx : Ctx) : HandlerResult :=
  if validateCreatePost urlOk f then
    if ctx.db.posts.any (fun p => p.title == f.title) then
      (.error .integrityError, ctx)
    else
      (.ok (.redirect "home"),
       { ctx with
         db := { ctx.db with
                 posts := ctx.db.posts ++ [mkBlogPost today f ctx.db.nextPostId],
                 nextPostId := ctx.db.nextPostId + 1 } })
  else
    (.ok (.render "make-post.html"), ctx)

/-- The `/new-post` route as registered: `admin_only` applied to the
handler body. -/
def new_post (urlOk : String → Bool) (today : String) (f : CreatePostForm)
    (ctx : Ctx) : HandlerResult :=
  admin_only (new_post_body urlOk today f) ctx

/-- Body of the `delete_post` handler (route `/delete/<int:post_id>`,
before the `admin_only` wrapping): `BlogPost.query.get(post_id)` followed
by `db.session.delete(...)`.  When no post has the id, `query.get` returns
`None` and `db.session.delete(None)` raises `UnmappedInstanceError` (not an
`AttributeError`, so the decorator does not catch it), leaving the store
unchanged. -/
def delete_post_body (post_id : Nat) (ctx : Ctx) : HandlerResult :=
  match ctx.db.posts.find? (fun p => p.id == post_id) with
  | some _ =>
    (.ok (.redirect "home"),
     { ctx with
       db := { ctx.db with
               posts := ctx.db.posts.filter (fun p => !(p.id == post_id)) } })
  | none => (.error .unmappedInstance, ctx)

/-- The `/delete/<int:post_id>` route as registered: `admin_only` applied
to the handler body. -/
def delete_post (post_id : Nat) (ctx : Ctx) : HandlerResult :=
  admin_only (delete_post_body post_id) ctx

/-- The `show_post` handler (route `/post/<int:post_id>`): fetches the post
by id and renders it (the template receives `None` when absent). -/
def show_post (post_id : Nat) (ctx : Ctx) : HandlerResult :=
  (.ok (.renderPost (ctx.db.posts.find? (fun p => p.id == post_id))), ctx)

/-- The `category_pics` dictionary of the `post_category` handler, with the
adjacent Python string literals concatenated. -/
def category_pics : List (String × String) :=
  [("Random Thoughts",
    "https://images.unsplash.com/photo-1495567720989-cebdbdd97913?ixlib=rb-4.0.3&ixid=MnwxMjA3fDB8MHxwaG90by1wYWdlfHx8fGVufDB8fHx8&auto=format&fit=crop&w=2070&q=80"),
   ("Entertainment",
    "https://images.unsplash.com/photo-1513346940221-6f673d962e97?ixlib=rb-4.0.3&ixid=MnwxMjA3fDB8MHxwaG90by1wYWdlfHx8fGVufDB8fHx8&auto=format&fit=crop&w=2070&q=80"),
   ("Technology",
    "https://images.unsplash.com/photo-1526374965328-7f61d4dc18c5?ixlib=rb-4.0.3&ixid=MnwxMjA3fDB8MHxzZWFyY2h8MTV8fHRlY2h8ZW58MHwwfDB8fA%3D%3D&auto=format&fit=crop&w=800&q=60"),
   ("Education",
    "https://images.unsplash.com/photo-1521587760476-6c12a4b040da?ixlib=rb-4.0.3&ixid=MnwxMjA3fDB8MHxwaG90by1wYWdlfHx8fGVufDB8fHx8&auto=format&fit=crop&w=2070&q=80")]

/-- The `post_category` handler (route `/post-category/<category>`):
filters posts by genre, remaps the display name `Tech` to `Technology`, and
looks the display name up in `category_pics` with plain subscripting —
a `KeyError` escapes when the display name is not a key of the
dictionary. -/
def post_category (category : String) (ctx : Ctx) : HandlerResult :=
  let posts := ctx.db.posts.filter (fun p => p.genre == category)
  let category_name := if category == "Tech" then "Technology" else category
  match category_pics.find? (fun kv => kv.fst == category_name) with
  | some kv => (.ok (.renderCategory posts category_name kv.snd), ctx)
  | none => (.error (.keyError category_name), ctx)

/-! ### Concrete instances of the external primitives, and sample states
used by the closed evaluation theorems. -/

/-- A concrete stand-in for the PBKDF2-HMAC-SHA256 digest primitive, used
only to evaluate the model on closed inputs. -/
def hashFnEx : String → String → String :=
  fun salt password => salt ++ "$" ++ password

/-- A concrete stand-in for the `URL()` regular-expression primitive. -/
def urlOkEx : String → Bool :=
  fun _ => true

def userA : User :=
  { id := 1, name := "A", email := "a@x.com",
    password := generate_password_hash hashFnEx "AAAAAAAA" "hunter22" }

def userB : User :=
  { id := 2, name := "B", email := "b@x.com",
    password := generate_password_hash hashFnEx "BBBBBBBB" "hunter23" }

def dbAB : DB :=
  { users := [userA, userB], posts := [], nextUserId := 3, nextPostId := 1 }

def ctxAnon : Ctx := { db := dbAB, session := none, flashes := [] }

def ctxA : Ctx := { db := dbAB, session := some 1, flashes := [] }

def ctxB : Ctx := { db := dbAB, session := some 2, flashes := [] }

def helloPost : BlogPost :=
  { id := 1, title := "Hello", subtitle := "s", date := "01/01/2024",
    body := "b", img_url := "https://x.com/i.png", author_id := none,
    genre := "Tech" }

def ctxAdminHello : Ctx :=
  { db := { users := [userA], posts := [helloPost],
            nextUserId := 2, nextPostId := 2 },
    session := some 1, flashes := [] }

def ctxAdminNoPosts : Ctx :=
  { db := { users := [userA], posts := [], nextUserId := 2, nextPostId := 1 },
    session := some 1, flashes := [] }

/-! ### Helper lemmas -/

theorem find_none_of_forall_false {α : Type} (p : α → Bool) (l : List α)
    (h : ∀ a ∈ l, p a = false) : l.find? p = none := by
  rw [List.find?_eq_none]
  intro x hx
  simp [h x hx]

theorem find_append_of_left_none {α : Type} (p : α → Bool) (l₁ l₂ : List α)
    (h : l₁.find? p = none) : (l₁ ++ l₂).find? p = l₂.find? p := by
  rw [List.find?_append, h, Option.none_or]

theorem validateRegister_length {f : RegisterForm}
    (h : validateRegister f = true) :
    7 ≤ f.password.length ∧ f.password.length ≤ 25 := by
  simp only [validateRegister, Bool.and_eq_true, decide_eq_true_eq] at h
  exact ⟨h.1.2, h.2⟩

theorem validateCreatePost_genre {urlOk : String → Bool} {f : CreatePostForm}
    (h : validateCreatePost urlOk f = true) :
    genreChoices.contains f.genre = true := by
  simp only [validateCreatePost, Bool.and_eq_true] at h
  exact h.1.1.1.2

/-! ### Claims -/

/-- Claim C1: the `admin_only` guard sends every anonymous identity and
every identity whose id is not 1 to the fixed Forbidden response without
invoking the wrapped handler (so the store, session and flashes are left
exactly as they were, for any handler whatsoever), and does not raise on an
anonymous identity; for the identity with id 1 the wrapped handler runs and
its result passes through unchanged. -/
theorem admin_only_guard_spec (handler : Ctx → HandlerResult) (ctx : Ctx) :
    (currentUser ctx = none → admin_only handler ctx = (.ok .forbidden, ctx)) ∧
    (∀ u, currentUser ctx = some u → u.id ≠ 1 →
      admin_only handler ctx = (.ok .forbidden, ctx)) ∧
    (∀ u, currentUser ctx = some u → u.id = 1 →
      admin_only handler ctx = handler ctx) := by
  refine ⟨fun h => ?_, fun u h hne => ?_, fun u h h1 => ?_⟩
  · simp [admin_only, h]
  · simp [admin_only, h, hne]
  · simp [admin_only, h, h1]

/-- Witness for C1: with the sample store, the non-admin user (id 2) and
the anonymous identity both get Forbidden with the state untouched, while
the admin (id 1) gets the own result of the wrapped handler. -/
theorem admin_only_guard_spec_witness :
    admin_only (fun c => (.ok (.redirect "home"), c)) ctxB =
      (.ok .forbidden, ctxB) ∧
    admin_only (fun c => (.ok (.redirect "home"), c)) ctxAnon =
      (.ok .forbidden, ctxAnon) ∧
    admin_only (fun c => (.ok (.redirect "home"), c)) ctxA =
      (.ok (.redirect "home"), ctxA) := by
  refine ⟨?_, ?_, ?_⟩
  · exact (admin_only_guard_spec _ ctxB).2.1 userB (by decide) (by decide)
  · exact (admin_only_guard_spec _ ctxAnon).1 (by decide)
  · exact (admin_only_guard_spec _ ctxA).2.2 userA (by decide) (by decide)

/-- Claim C2: on a validated login submission, a session is started (for
the first stored user carrying the submitted email) exactly when such a
user exists and `check_password_hash` accepts the submitted password
against the stored credential of that user; on a wrong password or an unknown
email the state is unchanged apart from the recorded flash message, so no
session is started. -/
theorem login_session_iff_verify (hashFn : String → String → String)
    (f : LoginForm) (ctx : Ctx) (hval : validateLogin f = true) :
    (∀ u, ctx.db.users.find? (fun v => v.email == f.email) = some u →
      (check_password_hash hashFn u.password f.password = true →
        login hashFn f ctx =
          (.ok (.redirect "home"), { ctx with session := some u.id })) ∧
      (check_password_hash hashFn u.password f.password = false →
        login hashFn f ctx =
          (.ok (.render "login.html"),
           { ctx with
             flashes := ctx.flashes ++ ["Incorrect password. Try again"] }))) ∧
    (ctx.db.users.find? (fun v => v.email == f.email) = none →
      login hashFn f ctx =
        (.ok (.render "login.html"),
         { ctx with
           flashes := ctx.flashes ++ ["There is no account for that user"] })) := by
  refine ⟨fun u hu => ⟨fun hok => ?_, fun hko => ?_⟩, fun hnone => ?_⟩
  · simp [login, hval, hu, hok]
  · simp [login, hval, hu, hko]
  · simp [login, hval, hnone]

/-- Witness for C2: in the sample store, logging in as `a@x.com` with the
right password starts a session for user 1, and with a wrong password only
flashes a message. -/
theorem login_session_iff_verify_witness :
    login hashFnEx { email := "a@x.com", password := "hunter22" } ctxAnon =
      (.ok (.redirect "home"), { ctxAnon with session := some 1 }) ∧
    login hashFnEx { email := "a@x.com", password := "wrongpw" } ctxAnon =
      (.ok (.render "login.html"),
       { ctxAnon with flashes := ["Incorrect password. Try again"] }) := by
  constructor
  · have h :=
      ((login_session_iff_verify hashFnEx
          { email := "a@x.com", password := "hunter22" } ctxAnon
          (by decide)).1 userA (by decide)).1 (by decide)
    simpa using h
  · have h :=
      ((login_session_iff_verify hashFnEx
          { email := "a@x.com", password := "wrongpw" } ctxAnon
          (by decide)).1 userA (by decide)).2 (by decide)
    simpa using h

/-- Counterexample for C3 as stated: a duplicate-email registration whose
form fails validation (password "abc" is shorter than 7 characters) does
not redirect to the login page and flashes nothing — it re-renders the
registration page with the state untouched — even though the submitted
email `a@x.com` is already stored. -/
theorem register_dup_email_invalid_cex :
    ((dbAB.users.map User.email).contains "a@x.com" = true) ∧
    register hashFnEx "CCCCCCCC"
        { name := "Bob", email := "a@x.com", password := "abc" } ctxAnon =
      (.ok (.render "register.html"), ctxAnon) := by
  exact ⟨by decide, rfl⟩

/-- Claim C3 (amended: restricted to submissions that pass form
validation): a validated registration whose email equals the email of a
stored user inserts no new `User` (the store is unchanged), flashes the
warning message and redirects to the login page. -/
theorem register_dup_email_redirects_login (hashFn : String → String → String)
    (salt : String) (f : RegisterForm) (ctx : Ctx)
    (hval : validateRegister f = true)
    (hdup : (ctx.db.users.find? (fun u => u.email == f.email)).isSome = true) :
    register hashFn salt f ctx =
      (.ok (.redirect "login"),
       { ctx with
         flashes := ctx.flashes ++
           ["This email is already registered in our database. Try logging in instead."] }) := by
  obtain ⟨u, hu⟩ := Option.isSome_iff_exists.mp hdup
  simp [register, hval, hu]

/-- Witness for the amended claim C3: a validated registration reusing
`a@x.com` in the sample store redirects to login with the warning flash. -/
theorem register_dup_email_redirects_login_witness :
    register hashFnEx "CCCCCCCC"
        { name := "Bob", email := "a@x.com", password := "hunter99" } ctxAnon =
      (.ok (.redirect "login"),
       { ctxAnon with
         flashes :=
           ["This email is already registered in our database. Try logging in instead."] }) := by
  have h := register_dup_email_redirects_login hashFnEx "CCCCCCCC"
    { name := "Bob", email := "a@x.com", password := "hunter99" } ctxAnon
    (by decide) (by decide)
  simpa using h

/-- Claim C4: a validated registration with a fresh email inserts exactly
one new `User` row — carrying the salted hash `generate_password_hash
hashFn salt password`, a `StoredCred` and never the raw password string —
commits it, and immediately afterwards the session is authenticated as
exactly that new user. -/
theorem register_fresh_email_creates_user (hashFn : String → String → String)
    (salt : String) (f : RegisterForm) (ctx : Ctx)
    (hval : validateRegister f = true)
    (hfresh : ctx.db.users.find? (fun u => u.email == f.email) = none)
    (hids : ∀ u ∈ ctx.db.users, u.id < ctx.db.nextUserId) :
    register hashFn salt f ctx =
      (.ok (.redirect "home"),
       { ctx with
         db := { ctx.db with
                 users := ctx.db.users ++
                   [{ id := ctx.db.nextUserId, name := f.name, email := f.email,
                      password := generate_password_hash hashFn salt f.password }],
                 nextUserId := ctx.db.nextUserId + 1 },
         session := some ctx.db.nextUserId }) ∧
    currentUser (register hashFn salt f ctx).2 =
      some { id := ctx.db.nextUserId, name := f.name, email := f.email,
             password := generate_password_hash hashFn salt f.password } := by
  have hreg : register hashFn salt f ctx =
      (.ok (.redirect "home"),
       { ctx with
         db := { ctx.db with
                 users := ctx.db.users ++
                   [{ id := ctx.db.nextUserId, name := f.name, email := f.email,
                      password := generate_password_hash hashFn salt f.password }],
                 nextUserId := ctx.db.nextUserId + 1 },
         session := some ctx.db.nextUserId }) := by
    simp [register, hval, hfresh]
  refine ⟨hreg, ?_⟩
  rw [hreg]
  simp only [currentUser, load_user, Option.some_bind]
  rw [find_append_of_left_none]
  · simp
  · apply find_none_of_forall_false
    intro u hu
    have := hids u hu
    simp only [beq_eq_false_iff_ne, ne_eq]
    omega

/-- Witness for C4: registering `c@x.com` in the sample store appends user
id 3 with the salted hash and logs that user in. -/
theorem register_fresh_email_creates_user_witness :
    register hashFnEx "DDDDDDDD"
        { name := "C", email := "c@x.com", password := "hunter24" } ctxAnon =
      (.ok (.redirect "home"),
       { db := { users := [userA, userB,
                   { id := 3, name := "C", email := "c@x.com",
                     password :=
                       generate_password_hash hashFnEx "DDDDDDDD" "hunter24" }],
                 posts := [], nextUserId := 4, nextPostId := 1 },
         session := some 3, flashes := [] }) ∧
    currentUser (register hashFnEx "DDDDDDDD"
        { name := "C", email := "c@x.com", password := "hunter24" } ctxAnon).2 =
      some { id := 3, name := "C", email := "c@x.com",
             password := generate_password_hash hashFnEx "DDDDDDDD" "hunter24" } := by
  have h := register_fresh_email_creates_user hashFnEx "DDDDDDDD"
    { name := "C", email := "c@x.com", password := "hunter24" } ctxAnon
    (by decide) (by decide) (by decide)
  exact ⟨h.1, h.2⟩

/-- Claim C5 (code bug): with the admin logged in and no post of id 5
stored, `/delete/5` does not redirect — `BlogPost.query.get(5)` returns
`None` and `db.session.delete(None)` raises `UnmappedInstanceError` (the
store is left unchanged).  The idempotence property stated by the spec (repeated
delete does not raise) fails on the code at this input. -/
theorem delete_post_missing_raises :
    delete_post 5 ctxAdminNoPosts = (.error .unmappedInstance, ctxAdminNoPosts) :=
  rfl

/-- Counterexample for C6 as stated: with the admin logged in, submitting a
validated new post titled "Hello" while a stored post already carries that
title neither flashes a message nor redirects anywhere — the commit raises
an uncaught `IntegrityError` from the `unique=True` title column (no
application-level duplicate-title pre-check exists), so the request
crashes; only "no second post is stored" survives. -/
theorem new_post_dup_title_cex :
    new_post urlOkEx "02/02/2024"
        { title := "Hello", subtitle := "t", genre := "Tech",
          img_url := "https://x.com/j.png", body := "bb" } ctxAdminHello =
      (.error .integrityError, ctxAdminHello) :=
  rfl

/-- Claim C6 (amended): an admin-submitted, validated new post whose title
equals the title of a stored post is rejected by the unique-title
constraint of the storage layer — the commit raises an uncaught `IntegrityError`
(no flash message, no redirect) and the store is unchanged, so no second
post with that title is stored. -/
theorem new_post_dup_title_integrity_error (urlOk : String → Bool)
    (today : String) (f : CreatePostForm) (ctx : Ctx) (u : User)
    (hcu : currentUser ctx = some u) (hadmin : u.id = 1)
    (hval : validateCreatePost urlOk f = true)
    (hdup : ctx.db.posts.any (fun p => p.title == f.title) = true) :
    new_post urlOk today f ctx = (.error .integrityError, ctx) := by
  simp [new_post, admin_only, hcu, hadmin, new_post_body, hval, hdup]

/-- Witness for the amended claim C6 at a concrete input. -/
theorem new_post_dup_title_integrity_error_witness :
    new_post urlOkEx "03/03/2024"
        { title := "Hello", subtitle := "w", genre := "Education",
          img_url := "https://x.com/k.png", body := "wb" } ctxAdminHello =
      (.error .integrityError, ctxAdminHello) := by
  exact new_post_dup_title_integrity_error urlOkEx "03/03/2024"
    { title := "Hello", subtitle := "w", genre := "Education",
      img_url := "https://x.com/k.png", body := "wb" } ctxAdminHello userA
    (by decide) (by decide) (by decide) (by decide)

/-- Claim C7: an admin-submitted, validated new post (so in particular its
genre lies in the enumerated choice set) with a fresh title is stored under
the assigned id (the post-table auto-increment counter), and fetching that
id through `show_post` returns exactly the submitted title, subtitle,
genre, body and img_url, with the `date` field equal to the creation-day
string. -/
theorem new_post_show_post_roundtrip (urlOk : String → Bool) (today : String)
    (f : CreatePostForm) (ctx : Ctx) (u : User)
    (hcu : currentUser ctx = some u) (hadmin : u.id = 1)
    (hval : validateCreatePost urlOk f = true)
    (hfresh : ctx.db.posts.any (fun p => p.title == f.title) = false)
    (hids : ∀ p ∈ ctx.db.posts, p.id < ctx.db.nextPostId) :
    genreChoices.contains f.genre = true ∧
    show_post ctx.db.nextPostId (new_post urlOk today f ctx).2 =
      (.ok (.renderPost (some
        { id := ctx.db.nextPostId, title := f.title, subtitle := f.subtitle,
          date := today, body := f.body, img_url := f.img_url,
          author_id := none, genre := f.genre })),
       (new_post urlOk today f ctx).2) := by
  have hroute : new_post urlOk today f ctx =
      (.ok (.redirect "home"),
       { ctx with
         db := { ctx.db with
                 posts := ctx.db.posts ++ [mkBlogPost today f ctx.db.nextPostId],
                 nextPostId := ctx.db.nextPostId + 1 } }) := by
    simp [new_post, admin_only, hcu, hadmin, new_post_body, hval, hfresh]
  refine ⟨validateCreatePost_genre hval, ?_⟩
  rw [hroute]
  simp only [show_post]
  rw [find_append_of_left_none]
  · simp [mkBlogPost]
  · apply find_none_of_forall_false
    intro p hp
    have := hids p hp
    simp only [beq_eq_false_iff_ne, ne_eq]
    omega

/-- Witness for C7: the admin creates a post titled "World" in the sample
store; fetching the assigned id 2 returns exactly the submitted fields with
the creation-day date. -/
theorem new_post_show_post_roundtrip_witness :
    show_post 2 (new_post urlOkEx "04/04/2024"
        { title := "World", subtitle := "w", genre := "Random Thoughts",
          img_url := "https://x.com/w.png", body := "wb" } ctxAdminHello).2 =
      (.ok (.renderPost (some
        { id := 2, title := "World", subtitle := "w", date := "04/04/2024",
          body := "wb", img_url := "https://x.com/w.png",
          author_id := none, genre := "Random Thoughts" })),
       (new_post urlOkEx "04/04/2024"
        { title := "World", subtitle := "w", genre := "Random Thoughts",
          img_url := "https://x.com/w.png", body := "wb" } ctxAdminHello).2) := by
  have h := new_post_show_post_roundtrip urlOkEx "04/04/2024"
    { title := "World", subtitle := "w", genre := "Random Thoughts",
      img_url := "https://x.com/w.png", body := "wb" } ctxAdminHello userA
    (by decide) (by decide) (by decide) (by decide) (by decide)
  exact h.2

/-- Claim C8 (code bug): errors are not all request-local normal responses —
requesting `/post-category/Sports` makes the handler raise an uncaught
`KeyError` (the `category_pics` dictionary has no key "Sports"), which the
framework surfaces as a 500 error page rather than a handler-produced
normal response; `/delete/<post_id>` on a missing id likewise raises. -/
theorem post_category_unknown_raises_keyerror :
    post_category "Sports" ctxAnon = (.error (.keyError "Sports"), ctxAnon) :=
  rfl

/-- Claim C9: two calls to the credential-hashing operation with distinct
8-character random salts produce distinct stored credentials for the same
password (the salt is embedded in the stored value), while
`check_password_hash` accepts the password against each of the two stored
values. -/
theorem password_hash_salt_randomization (hashFn : String → String → String)
    (s₁ s₂ pw : String) (h₁ : s₁.length = 8) (h₂ : s₂.length = 8)
    (hne : s₁ ≠ s₂) :
    generate_password_hash hashFn s₁ pw ≠ generate_password_hash hashFn s₂ pw ∧
    check_password_hash hashFn (generate_password_hash hashFn s₁ pw) pw = true ∧
    check_password_hash hashFn (generate_password_hash hashFn s₂ pw) pw = true := by
  refine ⟨fun h => hne ?_, ?_, ?_⟩
  · exact congrArg StoredCred.salt h
  · simp [check_password_hash, generate_password_hash]
  · simp [check_password_hash, generate_password_hash]

/-- Witness for C9 at two concrete 8-character salts. -/
theorem password_hash_salt_randomization_witness :
    generate_password_hash hashFnEx "AAAAAAAA" "hunter22" ≠
      generate_password_hash hashFnEx "BBBBBBBB" "hunter22" ∧
    check_password_hash hashFnEx
      (generate_password_hash hashFnEx "AAAAAAAA" "hunter22") "hunter22" = true ∧
    check_password_hash hashFnEx
      (generate_password_hash hashFnEx "BBBBBBBB" "hunter22") "hunter22" = true :=
  password_hash_salt_randomization hashFnEx "AAAAAAAA" "BBBBBBBB" "hunter22"
    (by decide) (by decide) (by decide)

/-- Claim C10: a registration whose password is shorter than 7 or longer
than 25 characters fails form validation, so the registration page is
re-rendered with the state untouched — no `User` is created and no session
is started; conversely, whenever a registration changes the user table at
all, the password length lies between 7 and 25 inclusive. -/
theorem register_password_length_bounds (hashFn : String → String → String)
    (salt : String) (f : RegisterForm) (ctx : Ctx) :
    ((f.password.length < 7 ∨ 25 < f.password.length) →
      register hashFn salt f ctx = (.ok (.render "register.html"), ctx)) ∧
    ((register hashFn salt f ctx).2.db.users ≠ ctx.db.users →
      7 ≤ f.password.length ∧ f.password.length ≤ 25) := by
  constructor
  · intro hbad
    have hv : validateRegister f = false := by
      cases h : validateRegister f with
      | false => rfl
      | true =>
        have := validateRegister_length h
        omega
    simp [register, hv]
  · intro hchange
    cases h : validateRegister f with
    | false =>
      exact absurd (by simp [register, h]) hchange
    | true => exact validateRegister_length h

/-- Witness for C10: a registration with the 3-character password "abc" in
the sample store re-renders the registration page, leaving the store and
session untouched. -/
theorem register_password_length_bounds_witness :
    register hashFnEx "EEEEEEEE"
        { name := "D", email := "d@x.com", password := "abc" } ctxAnon =
      (.ok (.render "register.html"), ctxAnon) :=
  (register_password_length_bounds hashFnEx "EEEEEEEE"
    { name := "D", email := "d@x.com", password := "abc" } ctxAnon).1
    (Or.inl (by decide))

end Blog
